import Mathlib

/-!
Verification of the two-dashboard AI feedback system
(`pages/1_User_Dashboard.py`, `pages/2_Admin_Dashboard.py`).

The embedding follows the source code:

* A stored submission record (one CSV row) is a `Review` with the six
  columns written by `save_review`.  Timestamps are modelled as natural
  numbers counting seconds (the code stores `datetime.now()` formatted at
  second precision and the admin page parses it back with
  `pd.to_datetime`; at this abstraction the round trip is the identity).
* The CSV file is modelled as the list of its data rows, in file order.
  Per the specification the file system is an opaque append/read store,
  so `pd.read_csv` / `DataFrame.to_csv` are the identity on that list.
* The two LLM invocations (`chain.invoke`) are opaque external calls:
  each is modelled by an `Except Unit String` argument — `.ok c` means the
  call returned completion text `c`, `.error ()` means it raised.
* `json.loads` is Python library code, not code of this repository; it is
  modelled by an oracle argument `loads : String → Option (List (String × String))`.
  `some d` means the text decoded to a JSON object with the given
  string-valued entries; `none` covers both a raised decode error and a
  decode to a non-object value (on a non-object the subsequent `.get`
  attribute access raises, and both raises land in the same bare
  `except:` branch of `generate_summary_and_actions`).
-/

/-- One row of `data/reviews.csv`: the six columns written by
`save_review` in `pages/1_User_Dashboard.py`. -/
structure Review where
  timestamp : Nat
  rating : Nat
  review : String
  ai_response : String
  ai_summary : String
  recommended_actions : String
deriving DecidableEq, Repr

/-- The persisted store: the data rows of `data/reviews.csv` in file
order. -/
abbrev Store := List Review

/-! ## Python string primitives

The handlers use `str.strip`, `str.startswith` and `str.split`.  These
are modelled by structurally recursive functions over the character
list, with the semantics of the Python library functions (for `split`,
on a non-empty separator: split at every leftmost non-overlapping
occurrence, always returning at least one piece). -/

/-- Whether the first list is a prefix of the second. -/
def isPrefixList : List Char → List Char → Bool
  | [], _ => true
  | _ :: _, [] => false
  | a :: as, b :: bs => a == b && isPrefixList as bs

/-- Python `str.strip()`: remove leading and trailing whitespace. -/
def pyStrip (s : String) : String :=
  String.mk
    (((s.data.dropWhile Char.isWhitespace).reverse.dropWhile
        Char.isWhitespace).reverse)

/-- Python `s.startswith(pre)`. -/
def pyStartsWith (s pre : String) : Bool :=
  isPrefixList pre.data s.data

/-- Worker for `pySplit`; the fuel (initially the string length) only
serves to make the recursion structural and is never exhausted for a
non-empty separator. -/
def pySplitGo (sep : List Char) (acc : List Char) :
    Nat → List Char → List (List Char)
  | _, [] => [acc.reverse]
  | 0, _ :: _ => [acc.reverse]
  | fuel + 1, c :: rest =>
    if isPrefixList sep (c :: rest) then
      acc.reverse :: pySplitGo sep [] fuel ((c :: rest).drop sep.length)
    else
      pySplitGo sep (c :: acc) fuel rest

/-- Python `s.split(sep)` for a non-empty separator. -/
def pySplit (s sep : String) : List String :=
  (pySplitGo sep.data [] s.data.length s.data).map String.mk

/-! ## User dashboard (`pages/1_User_Dashboard.py`) -/

/-- `generate_ai_response` (lines 54–76): invoke the model with the reply
prompt and return `response.content.strip()`.  Any exception from the
call propagates to the caller. -/
def generate_ai_response (invokeReply : Except Unit String) : Except Unit String :=
  invokeReply.map (fun c => pyStrip c)

/-- The code-fence stripping of `generate_summary_and_actions`
(lines 101–106): `content = response.content.strip()`; if it starts with
a fenced block marker, take the text between the opening and the next
fence.  `none` models an exception inside the `try` block (a failing
`[1]` index); by the `startsWith` guards this never actually happens,
but the translation keeps Python's partial indexing. -/
def stripFences (raw : String) : Option String :=
  let content := pyStrip raw
  if pyStartsWith content "```json" then
    match (pySplit content "```json").get? 1 with
    | some rest => some ((pySplit rest "```").headD "")
    | none => none
  else if pyStartsWith content "```" then
    match (pySplit content "```").get? 1 with
    | some rest => some ((pySplit rest "```").headD "")
    | none => none
  else
    some content

/-- Python `dict.get(key, default)` on a decoded JSON object. -/
def dictGet (d : List (String × String)) (key default : String) : String :=
  match d.find? (fun p => p.1 == key) with
  | some p => p.2
  | none => default

/-- The structured decode inside the `try` block (line 108):
fence-stripping followed by `json.loads(content.strip())`.  `none` is the
exception path (decode error, non-object result, or index error). -/
def decodeStructured (loads : String → Option (List (String × String)))
    (raw : String) : Option (List (String × String)) :=
  (stripFences raw).bind (fun c => loads (pyStrip c))

/-- The fallback pair of the bare `except:` branch (lines 110–114). -/
def fallbackPair (rating : Nat) : String × String :=
  (toString rating ++ "-star review requiring attention",
   "Review manually and respond appropriately")

/-- `generate_summary_and_actions` (lines 78–114): invoke the model with
the analysis prompt; on a raised call the exception propagates (the
`try` starts only after the invoke).  Otherwise strip fences, decode,
and read the two fields with `dict.get` defaults; any exception while
handling the response text falls into the bare `except:` and yields
`fallbackPair`. -/
def generate_summary_and_actions
    (loads : String → Option (List (String × String)))
    (rating : Nat) (invokeAnalysis : Except Unit String) :
    Except Unit (String × String) :=
  match invokeAnalysis with
  | .error e => .error e
  | .ok raw =>
    .ok (match decodeStructured loads raw with
         | some data =>
           (dictGet data "summary" "Summary not available",
            dictGet data "recommended_actions" "Actions not available")
         | none => fallbackPair rating)

/-- `save_review` (lines 116–129): read the current file contents,
concatenate one new row built from the arguments (timestamp first), and
write the contents back. -/
def save_review (store : Store) (now rating : Nat)
    (review ai_response ai_summary recommended_actions : String) : Store :=
  let new_row : Review :=
    { timestamp := now, rating := rating, review := review,
      ai_response := ai_response, ai_summary := ai_summary,
      recommended_actions := recommended_actions }
  store ++ [new_row]

/-- Outcome of one form submission as surfaced to the user. -/
inductive SubmitOutcome where
  | validationError
  | analysisError
  | success (reply : String)
deriving DecidableEq, Repr

/-- The form-submission handler (lines 176–205): reject a review that is
empty after `strip()`; otherwise run `generate_ai_response`, then
`generate_summary_and_actions`, then `save_review`, all inside one
`try`; any exception aborts before (or at) the save and shows an error,
leaving the store as it was. -/
def handleSubmission
    (loads : String → Option (List (String × String)))
    (invokeReply invokeAnalysis : Except Unit String)
    (now rating : Nat) (review_text : String) (store : Store) :
    SubmitOutcome × Store :=
  if pyStrip review_text = "" then
    (.validationError, store)
  else
    match generate_ai_response invokeReply with
    | .error _ => (.analysisError, store)
    | .ok ai_response =>
      match generate_summary_and_actions loads rating invokeAnalysis with
      | .error _ => (.analysisError, store)
      | .ok (ai_summary, recommended_actions) =>
        (.success ai_response,
         save_review store now rating review_text ai_response ai_summary
           recommended_actions)

/-! ## Admin dashboard (`pages/2_Admin_Dashboard.py`) -/

/-- `load_data` (lines 38–46): read the CSV and parse the timestamp
column back to datetimes.  At this abstraction (timestamps already
second-precision naturals, file as row list) the read is the identity on
the rows. -/
def load_data (store : Store) : List Review :=
  store

/-- The clear-all write (line 349): overwrite the file with an empty
frame that keeps only the column header. -/
def clear_store (_store : Store) : Store :=
  []

/-- Seconds per calendar day, for the `dt.date` grouping and the
`timedelta(days=n)` windows. -/
def secondsPerDay : Nat := 86400

/-- The date-filter selectbox (lines 228–231). -/
inductive DateFilter where
  | allTime
  | today
  | last7Days
  | last30Days
deriving DecidableEq, Repr

/-- The sort selectbox (lines 234–237). -/
inductive SortOrder where
  | newestFirst
  | oldestFirst
  | highestRating
  | lowestRating
deriving DecidableEq, Repr

/-- Filter application (lines 240–248): keep the rows whose rating is in
the multiselect, then apply the selected date window against the current
time.  `Today` compares calendar dates; the 7/30-day windows keep rows
with `timestamp > now - days`. -/
def applyFilters (rows : List Review) (rating_filter : List Nat)
    (date_filter : DateFilter) (now : Nat) : List Review :=
  let byRating := rows.filter (fun r => rating_filter.contains r.rating)
  match date_filter with
  | .allTime => byRating
  | .today =>
    byRating.filter (fun r => r.timestamp / secondsPerDay = now / secondsPerDay)
  | .last7Days =>
    byRating.filter (fun r => now - 7 * secondsPerDay < r.timestamp)
  | .last30Days =>
    byRating.filter (fun r => now - 30 * secondsPerDay < r.timestamp)

/-- Insert into a list sorted by `le` (helper for modelling
`sort_values`). -/
def insertLe (le : Review → Review → Bool) (x : Review) :
    List Review → List Review
  | [] => [x]
  | y :: ys => if le x y then x :: y :: ys else y :: insertLe le x ys

/-- A comparison sort, modelling pandas `sort_values` (library code; any
comparison sort produces the same multiset, which is all the exported
sets depend on). -/
def insertionSort (le : Review → Review → Bool) : List Review → List Review
  | [] => []
  | x :: xs => insertLe le x (insertionSort le xs)

/-- Sorting the filtered frame (lines 251–258). -/
def sortReviews (order : SortOrder) (rows : List Review) : List Review :=
  match order with
  | .newestFirst => insertionSort (fun a b => decide (b.timestamp ≤ a.timestamp)) rows
  | .oldestFirst => insertionSort (fun a b => decide (a.timestamp ≤ b.timestamp)) rows
  | .highestRating => insertionSort (fun a b => decide (b.rating ≤ a.rating)) rows
  | .lowestRating => insertionSort (fun a b => decide (a.rating ≤ b.rating)) rows

/-- The `filtered_df` the export section sees: rating and date filters,
then the selected sort (lines 240–258). -/
def filteredSorted (rows : List Review) (rating_filter : List Nat)
    (date_filter : DateFilter) (now : Nat) (order : SortOrder) : List Review :=
  sortReviews order (applyFilters rows rating_filter date_filter now)

/-- The critical-reviews export (line 335):
`filtered_df[filtered_df['rating'] <= 2]` — note it starts from the
filtered and sorted frame, not from the loaded data. -/
def criticalExport (rows : List Review) (rating_filter : List Nat)
    (date_filter : DateFilter) (now : Nat) (order : SortOrder) : List Review :=
  (filteredSorted rows rating_filter date_filter now order).filter
    (fun r => decide (r.rating ≤ 2))

/-! ## The clear-all control and the Streamlit rendering model

A Streamlit script is re-executed top to bottom on every widget
interaction.  `st.button` returns `True` exactly when the rerun now in
progress was triggered by a click on that very button; a rerun is
triggered by a single interaction, so in any one execution at most one
button call returns `True`.  An execution of the admin script is
therefore modelled as a function of the triggering event. -/

/-- The interaction that triggered the current rerun of the admin
script. -/
inductive AdminEvent where
  | clickClearAll
  | clickConfirmDelete
  | clickRefresh
  | otherInteraction
deriving DecidableEq, Repr

/-- The clear-all control (lines 346–352) as executed in one rerun
triggered by `e`: the outer `st.button("Clear All Data")` returns `True`
iff `e` is a click on it; only then is its body run, which renders the
warning and evaluates the inner `st.button("Confirm Delete")`, `True`
iff `e` is a click on that inner button.  Only when the inner returns
`True` is the store overwritten with the empty frame. -/
def clearAllControl (e : AdminEvent) (store : Store) : Store :=
  if e = .clickClearAll then
    if e = .clickConfirmDelete then clear_store store else store
  else store

/-- The store after the admin script reruns once for event `e` (the rest
of the script only reads the store). -/
def adminRunStore (e : AdminEvent) (store : Store) : Store :=
  clearAllControl e store

/-- The store after a whole sequence of admin interactions, each
triggering one rerun. -/
def adminTraceStore (events : List AdminEvent) (store : Store) : Store :=
  events.foldl (fun s e => adminRunStore e s) store

/-! ## Auxiliary definitions used in claim statements -/

/-- The records with rating at most 2 among a row set — the
"critical reviews" of the specification's glossary.  This follows the
spec's words; the export code is `criticalExport` above, and the two are
compared in the theorems. -/
def criticalOf (rows : List Review) : List Review :=
  rows.filter (fun r => decide (r.rating ≤ 2))

/-- Decode oracle for which every response text is malformed
(`json.loads` raises on every input the analyzer hands it). -/
def loadsNone : String → Option (List (String × String)) :=
  fun _ => none

/-- Decode oracle for which every response text decodes to the empty
JSON object: the structured decode succeeds but both expected fields
are missing. -/
def loadsEmptyObject : String → Option (List (String × String)) :=
  fun _ => some []

/-- Decode oracle for which every response text decodes to an object
carrying only the summary field: the structured decode succeeds and
exactly the recommended-actions field is missing. -/
def loadsSummaryOnly : String → Option (List (String × String)) :=
  fun _ => some [("summary", "The service was slow")]

/-! ## Helper lemmas -/

theorem insertLe_perm (le : Review → Review → Bool) (x : Review) :
    ∀ l : List Review, (insertLe le x l).Perm (x :: l) := by
  intro l
  induction l with
  | nil => simp [insertLe]
  | cons y ys ih =>
    simp only [insertLe]
    by_cases h : le x y
    · simp [h]
    · simp only [h, if_neg]
      exact (ih.cons y).trans (List.Perm.swap x y ys)

theorem insertionSort_perm (le : Review → Review → Bool) :
    ∀ l : List Review, (insertionSort le l).Perm l := by
  intro l
  induction l with
  | nil => simp [insertionSort]
  | cons x xs ih =>
    exact (insertLe_perm le x (insertionSort le xs)).trans (ih.cons x)

theorem sortReviews_perm (order : SortOrder) (rows : List Review) :
    (sortReviews order rows).Perm rows := by
  cases order <;> exact insertionSort_perm _ rows

theorem gsa_ok (loads : String → Option (List (String × String)))
    (rating : Nat) (raw : String) :
    ∃ sum act, generate_summary_and_actions loads rating (Except.ok raw)
      = Except.ok (sum, act) := by
  cases hd : decodeStructured loads raw with
  | some data =>
    exact ⟨dictGet data "summary" "Summary not available",
           dictGet data "recommended_actions" "Actions not available",
           by simp [generate_summary_and_actions, hd]⟩
  | none =>
    exact ⟨(fallbackPair rating).1, (fallbackPair rating).2,
           by simp [generate_summary_and_actions, hd]⟩

/-! ## Claims about the store -/

/-- Claim C2: appending a record to the store produces the prior
contents followed by the new record — every previously stored record is
unchanged and in its original position, and exactly one new record is
added at the end. -/
theorem save_review_appends
    (store : Store) (now rating : Nat) (review resp sum act : String) :
    save_review store now rating review resp sum act
      = store ++ [{ timestamp := now, rating := rating, review := review,
                    ai_response := resp, ai_summary := sum,
                    recommended_actions := act }]
    ∧ (save_review store now rating review resp sum act).take store.length
        = store
    ∧ (save_review store now rating review resp sum act).length
        = store.length + 1 := by
  refine ⟨rfl, ?_, by simp [save_review]⟩
  simp [save_review, List.take_left]

/-- Claim C6: appending record X and then loading all records yields a
non-empty sequence whose last element equals X on all six fields. -/
theorem append_round_trip
    (store : Store) (now rating : Nat) (review resp sum act : String) :
    load_data (save_review store now rating review resp sum act) ≠ []
    ∧ (load_data (save_review store now rating review resp sum act)).getLast?
        = some { timestamp := now, rating := rating, review := review,
                 ai_response := resp, ai_summary := sum,
                 recommended_actions := act } := by
  constructor
  · simp [load_data, save_review]
  · simp [load_data, save_review]

/-- Claim C7: clearing the store and then loading all records returns
the empty sequence, whatever the prior contents. -/
theorem clear_round_trip (store : Store) :
    load_data (clear_store store) = [] :=
  rfl

/-! ## Claims about the submission handler -/

/-- Claim C5: a review text that strips to empty is rejected with a
validation error and the store is left unchanged — nothing is
persisted. -/
theorem empty_review_rejected
    (loads : String → Option (List (String × String)))
    (invokeReply invokeAnalysis : Except Unit String)
    (now rating : Nat) (review_text : String) (store : Store)
    (h : pyStrip review_text = "") :
    handleSubmission loads invokeReply invokeAnalysis now rating review_text
        store
      = (SubmitOutcome.validationError, store) := by
  simp [handleSubmission, h]

/-- Witness for C5 at rating 4 and the whitespace-only review text. -/
theorem empty_review_rejected_witness :
    pyStrip "   " = "" ∧
    handleSubmission loadsNone (Except.ok "reply") (Except.ok "analysis")
        0 4 "   " []
      = (SubmitOutcome.validationError, []) :=
  ⟨by decide,
   empty_review_rejected loadsNone (Except.ok "reply") (Except.ok "analysis")
     0 4 "   " [] (by decide)⟩

/-! ## Claims about the analyzer -/

/-- Claim C3: when the structured decode of the model response fails,
`generate_summary_and_actions` does not raise and returns exactly the
pair `("<r>-star review requiring attention", "Review manually and
respond appropriately")` for the given rating. -/
theorem analyze_malformed_returns_fallback
    (loads : String → Option (List (String × String)))
    (rating : Nat) (raw : String)
    (h : decodeStructured loads raw = none) :
    generate_summary_and_actions loads rating (Except.ok raw)
      = Except.ok (toString rating ++ "-star review requiring attention",
                   "Review manually and respond appropriately") := by
  simp [generate_summary_and_actions, h, fallbackPair]

/-- Witness for C3 at rating 4 with an undecodable model response. -/
theorem analyze_malformed_returns_fallback_witness :
    decodeStructured loadsNone "not json" = none ∧
    generate_summary_and_actions loadsNone 4 (Except.ok "not json")
      = Except.ok (toString 4 ++ "-star review requiring attention",
                   "Review manually and respond appropriately") :=
  ⟨by decide,
   analyze_malformed_returns_fallback loadsNone 4 "not json" (by decide)⟩

/-- Counterexample to claim C4: when the decode succeeds but both
fields are missing (the empty JSON object), the code returns the
`dict.get` defaults `("Summary not available", "Actions not
available")`, which differ from the data-model fallback pair the claim
names. -/
theorem analyze_missing_fields_counterexample :
    decodeStructured loadsEmptyObject "raw text" = some [] ∧
    generate_summary_and_actions loadsEmptyObject 3 (Except.ok "raw text")
      = Except.ok ("Summary not available", "Actions not available") ∧
    fallbackPair 3 ≠ ("Summary not available", "Actions not available") := by
  refine ⟨by decide, by rfl, by decide⟩

/-- Claim C4 as amended: whenever the decode succeeds,
`generate_summary_and_actions` does not fail and returns the two fields
read with their `dict.get` defaults; each field that is missing from the
decoded object — the summary alone, the actions alone, or both — comes
back as its own default, `"Summary not available"` for a missing
summary and `"Actions not available"` for missing actions. -/
theorem analyze_missing_fields_defaults
    (loads : String → Option (List (String × String)))
    (rating : Nat) (raw : String) (d : List (String × String))
    (hdec : decodeStructured loads raw = some d) :
    generate_summary_and_actions loads rating (Except.ok raw)
      = Except.ok (dictGet d "summary" "Summary not available",
                   dictGet d "recommended_actions" "Actions not available")
    ∧ (d.find? (fun p => p.1 == "summary") = none →
        dictGet d "summary" "Summary not available"
          = "Summary not available")
    ∧ (d.find? (fun p => p.1 == "recommended_actions") = none →
        dictGet d "recommended_actions" "Actions not available"
          = "Actions not available") := by
  refine ⟨by simp [generate_summary_and_actions, hdec], ?_, ?_⟩
  · intro hs
    simp [dictGet, hs]
  · intro ha
    simp [dictGet, ha]

/-- Witness for the amended C4 at rating 4 with a response decoding to
an object that carries a summary but is missing the recommended-actions
field: the present field is returned and only the missing one falls
back to its default. -/
theorem analyze_missing_fields_defaults_witness :
    decodeStructured loadsSummaryOnly "y"
      = some [("summary", "The service was slow")] ∧
    generate_summary_and_actions loadsSummaryOnly 4 (Except.ok "y")
      = Except.ok ("The service was slow", "Actions not available") :=
  ⟨by decide,
   (analyze_missing_fields_defaults loadsSummaryOnly 4 "y"
      [("summary", "The service was slow")] (by decide)).1⟩

/-- Claim C10: once the model call has returned, the analyzer is total —
for every response text it returns some pair without raising, and it
raises exactly when the model call itself raised. -/
theorem analyze_total_once_model_responds
    (loads : String → Option (List (String × String))) (rating : Nat) :
    (∀ raw : String, ∃ p,
       generate_summary_and_actions loads rating (Except.ok raw)
         = Except.ok p)
    ∧ ∀ e : Unit,
        generate_summary_and_actions loads rating (Except.error e)
          = Except.error e := by
  constructor
  · intro raw
    obtain ⟨sum, act, h⟩ := gsa_ok loads rating raw
    exact ⟨(sum, act), h⟩
  · intro e
    rfl

/-- Counterexample to claim C1: the handler never checks that the reply
is non-empty.  With a model reply whose completion strips to the empty
string (and an analysis response that merely fails to decode), the
submission succeeds, displays the empty reply, and still appends one
record — so neither disjunct of the claim (non-empty reply, or raise
with no append) holds. -/
theorem submission_empty_reply_counterexample :
    handleSubmission loadsNone (Except.ok "") (Except.ok "junk") 0 5
        "Loved it" []
      = (SubmitOutcome.success "",
         [{ timestamp := 0, rating := 5, review := "Loved it",
            ai_response := "",
            ai_summary := "5-star review requiring attention",
            recommended_actions :=
              "Review manually and respond appropriately" }]) := by
  rfl

/-- Claim C1 as amended: for a review text that is non-empty after
trimming, a submission either succeeds with some reply (possibly empty —
non-emptiness is not enforced) and appends exactly one record carrying
the given rating, the untrimmed review text and that reply, or a model
call raises, the handler reports an analysis error, and the store is
left exactly as it was. -/
theorem submission_appends_or_leaves_store
    (loads : String → Option (List (String × String)))
    (invokeReply invokeAnalysis : Except Unit String)
    (now rating : Nat) (review_text : String) (store : Store)
    (h : pyStrip review_text ≠ "") :
    (∃ reply sum act,
       handleSubmission loads invokeReply invokeAnalysis now rating
           review_text store
         = (SubmitOutcome.success reply,
            store ++ [{ timestamp := now, rating := rating,
                        review := review_text, ai_response := reply,
                        ai_summary := sum,
                        recommended_actions := act }]))
    ∨ handleSubmission loads invokeReply invokeAnalysis now rating
          review_text store
        = (SubmitOutcome.analysisError, store) := by
  unfold handleSubmission
  rw [if_neg h]
  cases invokeReply with
  | error e => right; rfl
  | ok c =>
    cases invokeAnalysis with
    | error e => right; rfl
    | ok raw =>
      obtain ⟨sum, act, hgsa⟩ := gsa_ok loads rating raw
      left
      exact ⟨pyStrip c, sum, act,
        by simp [generate_ai_response, Except.map, hgsa, save_review]⟩

/-- Witness for the amended C1 at rating 5, review "Loved it", a
successful reply call and an undecodable analysis response. -/
theorem submission_appends_or_leaves_store_witness :
    pyStrip "Loved it" ≠ "" ∧
    ((∃ reply sum act,
       handleSubmission loadsNone (Except.ok "Thanks!") (Except.ok "x")
           0 5 "Loved it" []
         = (SubmitOutcome.success reply,
            [] ++ [{ timestamp := 0, rating := 5, review := "Loved it",
                     ai_response := reply, ai_summary := sum,
                     recommended_actions := act }]))
     ∨ handleSubmission loadsNone (Except.ok "Thanks!") (Except.ok "x")
           0 5 "Loved it" []
         = (SubmitOutcome.analysisError, [])) :=
  ⟨by decide,
   submission_appends_or_leaves_store loadsNone (Except.ok "Thanks!")
     (Except.ok "x") 0 5 "Loved it" [] (by decide)⟩

/-! ## Claims about the admin dashboard -/

/-- Counterexample to claim C8: the critical export is taken from the
already-filtered frame, not from the loaded data.  With a single
rating-1 record in the store and the rating multiselect set to
`[3, 4, 5]`, the critical export is empty although the loaded data
contains a critical record. -/
theorem critical_export_filter_dependent_counterexample :
    criticalExport
        [{ timestamp := 0, rating := 1, review := "Terrible",
           ai_response := "resp", ai_summary := "sum",
           recommended_actions := "act" }]
        [3, 4, 5] DateFilter.allTime 0 SortOrder.newestFirst = []
    ∧ criticalOf (load_data
        [{ timestamp := 0, rating := 1, review := "Terrible",
           ai_response := "resp", ai_summary := "sum",
           recommended_actions := "act" }])
      = [{ timestamp := 0, rating := 1, review := "Terrible",
           ai_response := "resp", ai_summary := "sum",
           recommended_actions := "act" }] := by
  constructor <;> decide

/-- Claim C8 as amended: the critical export consists of exactly the
records with rating at most 2 among the currently filtered (and sorted)
set; only when the selected filters do not exclude anything — every
stored rating is in the rating multiselect and the date filter is
All Time — does it coincide with the critical records of the loaded
data. -/
theorem critical_export_matches_filtered
    (rows : List Review) (rating_filter : List Nat)
    (date_filter : DateFilter) (now : Nat) (order : SortOrder) :
    (criticalExport rows rating_filter date_filter now order).Perm
      (criticalOf (applyFilters rows rating_filter date_filter now))
    ∧ ((∀ r ∈ rows, r.rating ∈ rating_filter) →
        date_filter = DateFilter.allTime →
        (criticalExport rows rating_filter date_filter now order).Perm
          (criticalOf (load_data rows))) := by
  have h1 : (criticalExport rows rating_filter date_filter now order).Perm
      (criticalOf (applyFilters rows rating_filter date_filter now)) := by
    unfold criticalExport filteredSorted criticalOf
    exact (sortReviews_perm order _).filter _
  refine ⟨h1, fun hall hdate => ?_⟩
  subst hdate
  have h2 : applyFilters rows rating_filter DateFilter.allTime now = rows := by
    unfold applyFilters
    apply List.filter_eq_self.mpr
    intro r hr
    simpa using hall r hr
  rw [h2] at h1
  exact h1

/-- Witness for the amended C8: one critical record, all ratings
selected, All Time. -/
theorem critical_export_matches_filtered_witness :
    (∀ r ∈ ([{ timestamp := 0, rating := 1, review := "Terrible",
               ai_response := "resp", ai_summary := "sum",
               recommended_actions := "act" }] : List Review),
       r.rating ∈ [1, 2, 3, 4, 5]) ∧
    (criticalExport
        [{ timestamp := 0, rating := 1, review := "Terrible",
           ai_response := "resp", ai_summary := "sum",
           recommended_actions := "act" }]
        [1, 2, 3, 4, 5] DateFilter.allTime 0 SortOrder.newestFirst).Perm
      (criticalOf (load_data
        [{ timestamp := 0, rating := 1, review := "Terrible",
           ai_response := "resp", ai_summary := "sum",
           recommended_actions := "act" }])) :=
  ⟨by decide,
   (critical_export_matches_filtered
      [{ timestamp := 0, rating := 1, review := "Terrible",
         ai_response := "resp", ai_summary := "sum",
         recommended_actions := "act" }]
      [1, 2, 3, 4, 5] DateFilter.allTime 0 SortOrder.newestFirst).2
     (by decide) rfl⟩

/-- Claim C9, code evaluation: under the rendering model — one
triggering interaction per rerun, `st.button` true only for that
interaction — the nested confirm button can never return true in a run
where the outer clear button also did, so no sequence of interactions
ever executes the clear: the store is unchanged by every admin trace.
In particular the trace clickClearAll, clickConfirmDelete (the claimed
confirm sequence) leaves the store intact, refuting the reachability
half of the claim while confirming its safety half vacuously. -/
theorem clear_all_never_fires (events : List AdminEvent) (store : Store) :
    adminTraceStore events store = store := by
  induction events generalizing store with
  | nil => rfl
  | cons e es ih =>
    have hstep : adminRunStore e store = store := by
      cases e <;> rfl
    show adminTraceStore es (adminRunStore e store) = store
    rw [hstep]
    exact ih store
